import Mathlib

/-!
Verification of the barcode API endpoints of
`src/InvenTree/plugin/base/barcodes/api.py`.

The four request handlers (`BarcodeScan.post`, `BarcodeAssign.post`,
`BarcodeUnassign.post`, `BarcodePOReceive.post`) are shallowly embedded
as pure Lean functions.  Request bodies and plugin results are modelled
as Python dictionaries (insertion-ordered association lists of string
keys and JSON-like values); plugins, bindable models, the barcode hash
function and the permission checker are modelled as parameters, since
they are external collaborators of this module.  Raised exceptions
become explicit constructors of `ApiResult`; mutations performed on
model instances (`assign_barcode`, `unassign_barcode`) are collected in
an explicit event list so that theorems can state that no mutation
happened.
-/

/-- A JSON-like value, as found in a decoded request body or in the
dictionary returned by a plugin `scan` method.  `null` is Python
`None`; `obj` is a nested dictionary. -/
inductive Value where
  | str (s : String)
  | num (n : Int)
  | null
  | obj (fields : List (String × Value))

/-- A Python dictionary: an insertion-ordered association list. -/
abbrev Dict := List (String × Value)

/-- Python truthiness of a value: `None`, the empty string, zero and
the empty dict are falsy. -/
def Value.falsy : Value → Bool
  | .str s => s == ""
  | .num n => n == 0
  | .null => true
  | .obj d => d.isEmpty

/-- `d.get(k, None)` on a Python dictionary. -/
def dictGet (d : Dict) (k : String) : Option Value :=
  (d.find? (fun kv => kv.1 == k)).map (fun kv => kv.2)

/-- `k in d` on a Python dictionary. -/
def hasKey (d : Dict) (k : String) : Bool :=
  d.any (fun kv => kv.1 == k)

/-- `d[k] = v` on a Python dictionary: an existing key keeps its
position and gets the new value, a new key is appended at the end. -/
def Dict.set (d : Dict) (k : String) (v : Value) : Dict :=
  if hasKey d k then d.map (fun kv => if kv.1 == k then (k, v) else kv)
  else d ++ [(k, v)]

/-- A generic barcode plugin (mixin `barcode`): it has a name and a
`scan` method returning `None` or a result dictionary. -/
structure Plugin where
  name : String
  scan : Value → Option Dict

/-- A supplier barcode plugin (mixin `supplier-barcode`): its
`scan_receive_item` method receives the barcode data, the requesting
user, and the optional purchase order and location. -/
structure SPlugin where
  name : String
  scanReceiveItem : Value → String → Option Value → Option Value → Option Dict

/-- A database model instance, reduced to its primary key.  A Django
model instance is always truthy. -/
structure Inst where
  pk : Value

/-- A bindable barcode model, as enumerated by
`InvenTreeInternalBarcodePlugin.get_supported_barcode_models()`:
`label` is `barcode_model_type()`, `table` is
`app_label_model_name`, and `lookup` models `objects.get(pk=...)`,
returning `none` when that call raises `ValueError` or
`DoesNotExist`. -/
structure BModel where
  label : String
  table : String
  lookup : Value → Option Inst

/-- A mutation performed on a model instance. -/
inductive MutEvent where
  | assign (label : String) (pk : Value) (barcodeData : Value) (barcodeHash : String)
  | unassign (label : String) (pk : Value)

/-- The outcome of a request handler.  `ok` is a DRF `Response` (HTTP
success); `validationError` and `permissionDenied` are the raised DRF
exceptions; `uncaught` is a non-DRF exception escaping the handler
(a server fault, not a user-facing failure). -/
inductive ApiResult where
  | ok (d : Dict)
  | validationError (d : Dict)
  | permissionDenied (d : Dict)
  | uncaught (exc : String)

/-- Whether a result is a permission failure. -/
def ApiResult.isPermissionError : ApiResult → Bool
  | .permissionDenied _ => true
  | _ => false

/-- The name attached to the response: `plugin.name if plugin else None`. -/
def pluginNameVal : Option Plugin → Value
  | some p => .str p.name
  | none => .null

/-- `scan` returned a result without an `error` key (a successful match). -/
def isMatch (r : Option Dict) : Bool :=
  match r with
  | none => false
  | some d => !(hasKey d "error")

/-- Python truthiness of an optional scan result (`None` and the empty
dict are falsy). -/
def scanTruthy (r : Option Dict) : Bool :=
  match r with
  | none => false
  | some d => !d.isEmpty

/-- The handler-chain loop of `BarcodeScan.post` (lines 70-86): walk
the plugins in order with the current `(plugin, response)` pair; a
`None` result is skipped; an error result is recorded only when no
response has been recorded yet; a non-error result wins and breaks the
loop.  The third component lists the plugins whose `scan` was
invoked. -/
def scanChain (bd : Value) : List Plugin → Option Plugin → Dict → Option Plugin × Dict × List Plugin
  | [], plug, resp => (plug, resp, [])
  | p :: rest, plug, resp =>
    match p.scan bd with
    | none =>
      let r := scanChain bd rest plug resp
      (r.1, r.2.1, p :: r.2.2)
    | some result =>
      if hasKey result "error" then
        if resp.isEmpty then
          let r := scanChain bd rest (some p) result
          (r.1, r.2.1, p :: r.2.2)
        else
          let r := scanChain bd rest plug resp
          (r.1, r.2.1, p :: r.2.2)
      else (some p, result, [p])

/-- `BarcodeScan.post`.  `hashBarcode` models `hash_barcode` from
`InvenTree.helpers` (an external deterministic digest); `plugins` is
`registry.with_mixin("barcode")`; `data` is `request.data`.  Returns
the handler outcome together with the list of plugins whose `scan`
method was invoked. -/
def barcodeScanPost (hashBarcode : Value → String) (plugins : List Plugin)
    (data : Dict) : ApiResult × List Plugin :=
  match dictGet data "barcode" with
  | none => (.validationError [("barcode", .str "Missing barcode data")], [])
  | some bd =>
    if bd.falsy then (.validationError [("barcode", .str "Missing barcode data")], [])
    else
      let bh := hashBarcode bd
      let r := scanChain bd plugins none []
      let plug := r.1
      let resp := Dict.set (Dict.set (Dict.set r.2.1 "plugin" (pluginNameVal plug))
        "barcode_data" bd) "barcode_hash" (.str bh)
      match plug with
      | none =>
        (.validationError (Dict.set resp "error" (.str "No match found for barcode data")), r.2.2)
      | some _ =>
        (.ok (Dict.set resp "success" (.str "Match found for barcode data")), r.2.2)

/-- The first plugin whose `scan` returns a result, with that result:
the loop of `BarcodeAssign.post` lines 129-137. -/
def findScan : List Plugin → Value → Option (Plugin × Dict)
  | [], _ => none
  | p :: rest, bd =>
    match p.scan bd with
    | some r => some (p, r)
    | none => findScan rest bd

/-- Python `repr` of a list of strings, as interpolated by
`f"Missing data: provide one of \x7bvalid_labels\x7d"`. -/
def pyListRepr (xs : List String) : String :=
  "[" ++ String.intercalate ", " (xs.map (fun s => "\x27" ++ s ++ "\x27")) ++ "]"

/-- The per-model loop of `BarcodeAssign.post` (lines 143-184): the
first supported model whose label is a key of the request is looked up
by primary key; a failed lookup is a validation error, then the
table-level change permission is checked, then the barcode is assigned
to the instance.  When no label matches, the terminal error lists all
the valid labels (`allLabels`). -/
def assignLoop (bd : Value) (bh : String) (perm : String → Bool) (data : Dict)
    (allLabels : List String) : List BModel → ApiResult × List MutEvent
  | [] =>
    (.validationError
      [("error", .str ("Missing data: provide one of \x27" ++ pyListRepr allLabels ++ "\x27"))], [])
  | m :: rest =>
    match dictGet data m.label with
    | none => assignLoop bd bh perm data allLabels rest
    | some pkv =>
      match m.lookup pkv with
      | none =>
        (.validationError
          [("error", .str ("No matching " ++ m.label ++ " instance found in database"))], [])
      | some inst =>
        if perm m.table then
          (.ok [("success", .str ("Assigned barcode to " ++ m.label ++ " instance")),
                (m.label, .obj [("pk", inst.pk)]),
                ("barcode_data", bd),
                ("barcode_hash", .str bh)],
           [.assign m.label inst.pk bd bh])
        else
          (.permissionDenied
            [("error", .str ("You do not have the required permissions for " ++ m.table))], [])

/-- `BarcodeAssign.post`.  `builtins` is
`registry.with_mixin("barcode", builtin=True)`; `models` is
`InvenTreeInternalBarcodePlugin.get_supported_barcode_models()`;
`perm t` models `RuleSet.check_table_permission(request.user, t,
"change")`. -/
def barcodeAssignPost (hashBarcode : Value → String) (builtins : List Plugin)
    (models : List BModel) (perm : String → Bool) (data : Dict) :
    ApiResult × List MutEvent :=
  match dictGet data "barcode" with
  | none => (.validationError [("barcode", .str "Missing barcode data")], [])
  | some bd =>
    if bd.falsy then (.validationError [("barcode", .str "Missing barcode data")], [])
    else
      match findScan builtins bd with
      | some pr =>
        (.validationError
          (Dict.set (Dict.set (Dict.set pr.2 "error" (.str "Barcode matches existing item"))
            "plugin" (.str pr.1.name)) "barcode_data" bd), [])
      | none =>
        assignLoop bd (hashBarcode bd) perm data (models.map (fun m => m.label)) models

/-- The per-model loop of `BarcodeUnassign.post` (lines 221-253): the
first supported model whose label is a key of the request is looked up
by primary key, the change permission is checked, and the barcode is
unassigned; falling out of the loop yields the trailing error. -/
def unassignLoop (perm : String → Bool) (data : Dict) : List BModel → ApiResult × List MutEvent
  | [] => (.validationError [("error", .str "Could not unassign barcode")], [])
  | m :: rest =>
    match dictGet data m.label with
    | none => unassignLoop perm data rest
    | some pkv =>
      match m.lookup pkv with
      | none =>
        (.validationError [(m.label, .str "No match found for provided value")], [])
      | some inst =>
        if perm m.table then
          (.ok [("success", .str ("Barcode unassigned from " ++ m.label ++ " instance"))],
           [.unassign m.label inst.pk])
        else
          (.permissionDenied
            [("error", .str ("You do not have the required permissions for " ++ m.table))], [])

/-- `BarcodeUnassign.post`: count how many supported labels occur in
the request; zero or more than one is rejected before the per-model
loop runs. -/
def barcodeUnassignPost (models : List BModel) (perm : String → Bool) (data : Dict) :
    ApiResult × List MutEvent :=
  let supportedLabels := models.map (fun m => m.label)
  let modelNames := String.intercalate ", " supportedLabels
  let matched := supportedLabels.filter (fun l => (dictGet data l).isSome)
  if matched.length = 0 then
    (.validationError
      [("error", .str ("Missing data: Provide one of \x27" ++ modelNames ++ "\x27"))], [])
  else if matched.length > 1 then
    (.validationError
      [("error", .str ("Multiple conflicting fields: \x27" ++ modelNames ++ "\x27"))], [])
  else
    unassignLoop perm data models

/-- Resolution of the optional `purchase_order` field (lines 286-291):
a falsy or absent value is skipped; otherwise
`PurchaseOrder.objects.filter(pk=...).first()` is modelled by
`poLookup`, and `None` raises the validation error. -/
def poResolve (poLookup : Value → Option Inst) (v : Option Value) :
    Except ApiResult (Option Inst) :=
  match v with
  | none => .ok none
  | some pov =>
    if pov.falsy then .ok none
    else
      match poLookup pov with
      | none => .error (.validationError [("purchase_order", .str "Invalid purchase order")])
      | some po => .ok (some po)

/-- Resolution of the optional `location` field (lines 293-297):
a falsy or absent value is skipped; otherwise
`StockLocation.objects.get(pk=...)` raises an uncaught
`StockLocation.DoesNotExist` when no row matches (`objects.get`
never returns `None`, so the `if not location` validation branch in
the source is unreachable: a returned model instance is truthy). -/
def locResolve (locLookup : Value → Option Inst) (v : Option Value) :
    Except ApiResult (Option Inst) :=
  match v with
  | none => .ok none
  | some lv =>
    if lv.falsy then .ok none
    else
      match locLookup lv with
      | none => .error (.uncaught "StockLocation.DoesNotExist")
      | some l => .ok (some l)

/-- The name attached to the receive response. -/
def spluginNameVal : Option SPlugin → Value
  | some p => .str p.name
  | none => .null

/-- The supplier-plugin loop of `BarcodePOReceive.post` (lines
314-335): same candidate policy as `scanChain`, over
`scan_receive_item`.  The third component lists the supplier plugins
whose `scan_receive_item` was invoked. -/
def receiveChain (bd : Value) (user : String) (po loc : Option Inst) :
    List SPlugin → Option SPlugin → Dict → Option SPlugin × Dict × List SPlugin
  | [], plug, resp => (plug, resp, [])
  | p :: rest, plug, resp =>
    match p.scanReceiveItem bd user (po.map (fun i => i.pk)) (loc.map (fun i => i.pk)) with
    | none =>
      let r := receiveChain bd user po loc rest plug resp
      (r.1, r.2.1, p :: r.2.2)
    | some result =>
      if hasKey result "error" then
        if resp.isEmpty then
          let r := receiveChain bd user po loc rest (some p) result
          (r.1, r.2.1, p :: r.2.2)
        else
          let r := receiveChain bd user po loc rest plug resp
          (r.1, r.2.1, p :: r.2.2)
      else (some p, result, [p])

/-- `BarcodePOReceive.post`.  `plugins` is
`registry.with_mixin("barcode")`; `splugins` is
`registry.with_mixin("supplier-barcode")`; the internal plugin is
located by name with `next(filter(...))`, whose exhaustion raises an
uncaught `StopIteration`. -/
def barcodePOReceivePost (hashBarcode : Value → String) (plugins : List Plugin)
    (splugins : List SPlugin) (poLookup locLookup : Value → Option Inst)
    (user : String) (data : Dict) : ApiResult × List SPlugin :=
  match dictGet data "barcode" with
  | none => (.validationError [("barcode", .str "Missing barcode data")], [])
  | some bd =>
    if bd.falsy then (.validationError [("barcode", .str "Missing barcode data")], [])
    else
      match poResolve poLookup (dictGet data "purchase_order") with
      | .error e => (e, [])
      | .ok po =>
        match locResolve locLookup (dictGet data "location") with
        | .error e => (e, [])
        | .ok loc =>
          match plugins.find? (fun p => p.name == "InvenTreeBarcode") with
          | none => (.uncaught "StopIteration", [])
          | some ip =>
            if scanTruthy (ip.scan bd) then
              (.validationError [("error", .str "Item has already been received")], [])
            else
              let r := receiveChain bd user po loc splugins none []
              let plug := r.1
              let resp := Dict.set (Dict.set (Dict.set r.2.1 "plugin" (spluginNameVal plug))
                "barcode_data" bd) "barcode_hash" (.str (hashBarcode bd))
              match plug with
              | none =>
                (.validationError (Dict.set resp "error" (.str "No match for supplier barcode")), r.2.2)
              | some _ =>
                if hasKey resp "error" then (.validationError resp, r.2.2)
                else (.ok resp, r.2.2)

/-! Concrete fixtures used by closed theorems and witnesses. -/

/-- A concrete stand-in for the external barcode hash function. -/
def hashX : Value → String := fun _ => "HASH"

/-- A plugin whose scan always reports an error outcome. -/
def pErr : Plugin := { name := "PE", scan := fun _ => some [("error", .str "bad")] }

/-- A plugin whose scan never recognises anything. -/
def pNone : Plugin := { name := "PN", scan := fun _ => none }

/-- A plugin whose scan always reports a successful match. -/
def pSucc : Plugin := { name := "PS", scan := fun _ => some [("k", .str "v")] }

/-- A later plugin that must never be reached. -/
def pSpy : Plugin := { name := "SPY", scan := fun _ => some [("spied", .str "yes")] }

/-- The internal plugin, recognising every payload. -/
def ipX : Plugin :=
  { name := "InvenTreeBarcode", scan := fun _ => some [("stockitem", .obj [("pk", .num 1)])] }

/-- A supplier plugin that must never be reached. -/
def spyS : SPlugin := { name := "SPYS", scanReceiveItem := fun _ _ _ _ => some [("ok", .null)] }

/-- A bindable model whose primary-key lookup never finds a row. -/
def mdlX : BModel := { label := "part", table := "part_part", lookup := fun _ => none }

/-- A bindable model whose primary-key lookup always finds a row. -/
def mdlOk : BModel := { label := "part", table := "part_part", lookup := fun v => some { pk := v } }

/-- A second bindable model, for multi-label requests. -/
def mdlB : BModel :=
  { label := "stockitem", table := "stock_stockitem", lookup := fun v => some { pk := v } }

/-- A permission checker that denies everything. -/
def permNone : String → Bool := fun _ => false

/-- A primary-key lookup that never finds a row. -/
def lkNone : Value → Option Inst := fun _ => none

/-- A scan request body. -/
def dataS : Dict := [("barcode", .str "XYZ")]

/-- An assign request body naming a supported label. -/
def dataCex : Dict := [("barcode", .str "B1"), ("part", .num 7)]

/-- An unassign request body with exactly one supported label. -/
def dataU : Dict := [("part", .num 7)]

/-- An unassign request body with no supported label. -/
def dataU0 : Dict := [("x", .num 1)]

/-- An unassign request body with two supported labels. -/
def dataU2 : Dict := [("part", .num 1), ("stockitem", .num 2)]

/-- A receive request body with a dangling location reference. -/
def dataR : Dict := [("barcode", .str "B"), ("location", .num 999)]

/-- A receive request body with no optional references. -/
def dataR2 : Dict := [("barcode", .str "B")]

/-! Helper lemmas about the handler-chain loops. -/

/-- Walking a prefix of plugins none of which returns a successful
match leaves the loop running on the remainder from some intermediate
state, with the prefix prepended to the invocation trace. -/
lemma scanChain_append_no_match (bd : Value) (rest : List Plugin) :
    ∀ (pre : List Plugin) (plug : Option Plugin) (resp : Dict),
      (∀ p ∈ pre, isMatch (p.scan bd) = false) →
      ∃ plug2 resp2,
        scanChain bd (pre ++ rest) plug resp =
          ((scanChain bd rest plug2 resp2).1, (scanChain bd rest plug2 resp2).2.1,
            pre ++ (scanChain bd rest plug2 resp2).2.2) := by
  intro pre
  induction pre with
  | nil => intro plug resp _; exact ⟨plug, resp, by simp⟩
  | cons p pre ih =>
    intro plug resp h
    have hp : isMatch (p.scan bd) = false := h p (by simp)
    have hrest : ∀ q ∈ pre, isMatch (q.scan bd) = false := fun q hq => h q (by simp [hq])
    cases hscan : p.scan bd with
    | none =>
      obtain ⟨plug2, resp2, heq⟩ := ih plug resp hrest
      exact ⟨plug2, resp2, by simp [scanChain, hscan, heq]⟩
    | some result =>
      have herr : hasKey result "error" = true := by
        simpa [isMatch, hscan] using hp
      cases hre : resp.isEmpty with
      | true =>
        obtain ⟨plug2, resp2, heq⟩ := ih (some p) result hrest
        exact ⟨plug2, resp2, by simp [scanChain, hscan, herr, hre, heq]⟩
      | false =>
        obtain ⟨plug2, resp2, heq⟩ := ih plug resp hrest
        exact ⟨plug2, resp2, by simp [scanChain, hscan, herr, hre, heq]⟩

/-- A chain in which every scan returns `None` records nothing and
invokes everybody. -/
lemma scanChain_all_none (bd : Value) :
    ∀ (ps : List Plugin) (plug : Option Plugin) (resp : Dict),
      (∀ p ∈ ps, p.scan bd = none) →
      scanChain bd ps plug resp = (plug, resp, ps) := by
  intro ps
  induction ps with
  | nil => intro plug resp _; rfl
  | cons p rest ih =>
    intro plug resp h
    have hp : p.scan bd = none := h p (by simp)
    simp [scanChain, hp, ih plug resp (fun q hq => h q (by simp [hq]))]

/-- The generic scan endpoint on a chain whose first successful match
is `w`: the response is built from the dictionary returned by `w`, and
nothing after `w` is invoked. -/
lemma scan_success_general (hashBarcode : Value → String) (data : Dict) (bd : Value)
    (pre post : List Plugin) (w : Plugin) (r : Dict)
    (hget : dictGet data "barcode" = some bd) (hfal : bd.falsy = false)
    (hpre : ∀ p ∈ pre, isMatch (p.scan bd) = false)
    (hw : w.scan bd = some r) (hr : hasKey r "error" = false) :
    barcodeScanPost hashBarcode (pre ++ w :: post) data =
      (.ok (Dict.set (Dict.set (Dict.set (Dict.set r "plugin" (.str w.name))
          "barcode_data" bd) "barcode_hash" (.str (hashBarcode bd)))
          "success" (.str "Match found for barcode data")),
       pre ++ [w]) := by
  obtain ⟨plug2, resp2, heq⟩ := scanChain_append_no_match bd (w :: post) pre none [] hpre
  have hw2 : scanChain bd (w :: post) plug2 resp2 = (some w, r, [w]) := by
    simp [scanChain, hw, hr]
  rw [hw2] at heq
  simp [barcodeScanPost, hget, hfal, heq, pluginNameVal]

/-- C2: if a handler in the generic-scan chain returns a successful
match and no earlier handler does, `BarcodeScan.post` returns that
handler's outcome (with plugin name, payload, hash and success message
attached) as the HTTP response, and no handler positioned after the
winner is ever invoked: the invocation trace is exactly the prefix up
to and including the winner. -/
theorem scan_first_match_wins (hashBarcode : Value → String) (data : Dict) (bd : Value)
    (pre post : List Plugin) (w : Plugin) (r : Dict)
    (hget : dictGet data "barcode" = some bd) (hfal : bd.falsy = false)
    (hpre : ∀ p ∈ pre, isMatch (p.scan bd) = false)
    (hw : w.scan bd = some r) (hr : hasKey r "error" = false) :
    barcodeScanPost hashBarcode (pre ++ w :: post) data =
      (.ok (Dict.set (Dict.set (Dict.set (Dict.set r "plugin" (.str w.name))
          "barcode_data" bd) "barcode_hash" (.str (hashBarcode bd)))
          "success" (.str "Match found for barcode data")),
       pre ++ [w]) :=
  scan_success_general hashBarcode data bd pre post w r hget hfal hpre hw hr

theorem scan_first_match_wins_witness :
    pSucc.scan (.str "XYZ") = some [("k", .str "v")] ∧
    barcodeScanPost hashX ([pNone] ++ pSucc :: [pSpy]) dataS =
      (.ok (Dict.set (Dict.set (Dict.set (Dict.set [("k", .str "v")] "plugin" (.str pSucc.name))
          "barcode_data" (.str "XYZ")) "barcode_hash" (.str (hashX (.str "XYZ"))))
          "success" (.str "Match found for barcode data")),
       [pNone] ++ [pSucc]) :=
  ⟨rfl, scan_first_match_wins hashX dataS (.str "XYZ") [pNone] [pSpy] pSucc [("k", .str "v")]
    rfl rfl (by intro p hp; rw [List.mem_singleton] at hp; subst hp; rfl) rfl rfl⟩

/-- C3: if an earlier handler in the generic-scan chain returns an
error outcome and a later handler is the first to return a successful
match, `BarcodeScan.post` returns the later handler's success, not the
recorded error. -/
theorem scan_success_preempts_error (hashBarcode : Value → String) (data : Dict) (bd : Value)
    (pre mid post : List Plugin) (A B : Plugin) (rA rB : Dict)
    (hget : dictGet data "barcode" = some bd) (hfal : bd.falsy = false)
    (hpre : ∀ p ∈ pre, isMatch (p.scan bd) = false)
    (hA : A.scan bd = some rA) (hAerr : hasKey rA "error" = true)
    (hmid : ∀ p ∈ mid, isMatch (p.scan bd) = false)
    (hB : B.scan bd = some rB) (hBok : hasKey rB "error" = false) :
    (barcodeScanPost hashBarcode (pre ++ A :: (mid ++ B :: post)) data).1 =
      .ok (Dict.set (Dict.set (Dict.set (Dict.set rB "plugin" (.str B.name))
          "barcode_data" bd) "barcode_hash" (.str (hashBarcode bd)))
          "success" (.str "Match found for barcode data")) := by
  have hall : ∀ p ∈ pre ++ A :: mid, isMatch (p.scan bd) = false := by
    intro p hp
    rcases List.mem_append.mp hp with h1 | h2
    · exact hpre p h1
    · rcases List.mem_cons.mp h2 with h3 | h3
      · subst h3; simp [isMatch, hA, hAerr]
      · exact hmid p h3
  have hassoc : pre ++ A :: (mid ++ B :: post) = (pre ++ A :: mid) ++ (B :: post) := by simp
  rw [hassoc,
    scan_success_general hashBarcode data bd (pre ++ A :: mid) post B rB hget hfal hall hB hBok]

theorem scan_success_preempts_error_witness :
    pErr.scan (.str "XYZ") = some [("error", .str "bad")] ∧
    (barcodeScanPost hashX ([] ++ pErr :: ([] ++ pSucc :: [])) dataS).1 =
      .ok (Dict.set (Dict.set (Dict.set (Dict.set [("k", .str "v")] "plugin" (.str pSucc.name))
          "barcode_data" (.str "XYZ")) "barcode_hash" (.str (hashX (.str "XYZ"))))
          "success" (.str "Match found for barcode data")) :=
  ⟨rfl, scan_success_preempts_error hashX dataS (.str "XYZ") [] [] [] pErr pSucc
    [("error", .str "bad")] [("k", .str "v")]
    rfl rfl (by simp) rfl rfl (by simp) rfl rfl⟩

/-- C9: if every handler in the generic-scan chain returns `None`,
`BarcodeScan.post` raises a validation error whose body carries
`plugin: null`, the payload, its hash, and the message
`No match found for barcode data`. -/
theorem scan_no_match_error (hashBarcode : Value → String) (plugins : List Plugin)
    (data : Dict) (bd : Value)
    (hget : dictGet data "barcode" = some bd) (hfal : bd.falsy = false)
    (hall : ∀ p ∈ plugins, p.scan bd = none) :
    barcodeScanPost hashBarcode plugins data =
      (.validationError [("plugin", .null), ("barcode_data", bd),
        ("barcode_hash", .str (hashBarcode bd)),
        ("error", .str "No match found for barcode data")], plugins) := by
  have hchain := scanChain_all_none bd plugins none [] hall
  simp [barcodeScanPost, hget, hfal, hchain, pluginNameVal, Dict.set, hasKey]

theorem scan_no_match_error_witness :
    pNone.scan (.str "XYZ") = none ∧
    barcodeScanPost hashX [pNone] dataS =
      (.validationError [("plugin", .null), ("barcode_data", .str "XYZ"),
        ("barcode_hash", .str (hashX (.str "XYZ"))),
        ("error", .str "No match found for barcode data")], [pNone]) :=
  ⟨rfl, scan_no_match_error hashX [pNone] dataS (.str "XYZ") rfl rfl
    (by intro p hp; rw [List.mem_singleton] at hp; subst hp; rfl)⟩

/-- C1: when every handler in the generic-scan chain returns absent or
an error outcome and at least one returns an error, `BarcodeScan.post`
does NOT propagate the recorded error as a user-facing failure: at
this concrete input the single handler reports an error outcome, yet
the endpoint returns an HTTP success (`Response`) whose body carries
both the recorded `error` field and a `success: Match found for
barcode data` field.  The specified behaviour (return the candidate
tagged `error`) is what the sibling `BarcodePOReceive.post` implements
with its `elif "error" in response` branch; `BarcodeScan.post` lacks
that branch. -/
theorem scan_error_only_returned_as_success :
    (barcodeScanPost hashX [pErr] dataS).1 =
      .ok [("error", .str "bad"), ("plugin", .str "PE"), ("barcode_data", .str "XYZ"),
           ("barcode_hash", .str "HASH"), ("success", .str "Match found for barcode data")] := rfl

/-- The first builtin plugin reporting any result wins the pre-check
loop of `BarcodeAssign.post`. -/
lemma findScan_eq (bd : Value) :
    ∀ (pre : List Plugin) (p : Plugin) (post : List Plugin) (r : Dict),
      (∀ q ∈ pre, q.scan bd = none) → p.scan bd = some r →
      findScan (pre ++ p :: post) bd = some (p, r) := by
  intro pre
  induction pre with
  | nil => intro p post r _ hp; simp [findScan, hp]
  | cons q pre ih =>
    intro p post r h hp
    have hq : q.scan bd = none := h q (by simp)
    simp [findScan, hq, ih p post r (fun x hx => h x (by simp [hx])) hp]

/-- C4: when any builtin handler reports a result for the payload,
`BarcodeAssign.post` raises a validation error built from the first
such handler's result, with the message `Barcode matches existing
item`, the matching handler's name and the payload attached, and no
assign mutation is performed — independently of which supported-label
primary keys the request also carries. -/
theorem assign_rejects_known_barcode (hashBarcode : Value → String)
    (pre post : List Plugin) (p : Plugin) (r : Dict) (models : List BModel)
    (perm : String → Bool) (data : Dict) (bd : Value)
    (hget : dictGet data "barcode" = some bd) (hfal : bd.falsy = false)
    (hpre : ∀ q ∈ pre, q.scan bd = none) (hp : p.scan bd = some r) :
    barcodeAssignPost hashBarcode (pre ++ p :: post) models perm data =
      (.validationError (Dict.set (Dict.set (Dict.set r "error"
          (.str "Barcode matches existing item")) "plugin" (.str p.name))
          "barcode_data" bd), []) := by
  simp [barcodeAssignPost, hget, hfal, findScan_eq bd pre p post r hpre hp]

theorem assign_rejects_known_barcode_witness :
    pSucc.scan (.str "B1") = some [("k", .str "v")] ∧
    barcodeAssignPost hashX ([] ++ pSucc :: []) [mdlOk] permNone dataCex =
      (.validationError (Dict.set (Dict.set (Dict.set [("k", .str "v")] "error"
          (.str "Barcode matches existing item")) "plugin" (.str pSucc.name))
          "barcode_data" (.str "B1")), []) :=
  ⟨rfl, assign_rejects_known_barcode hashX [] [] pSucc [("k", .str "v")] [mdlOk]
    permNone dataCex (.str "B1") rfl rfl (by simp) rfl⟩

/-- C5: when the distinguished internal handler `InvenTreeBarcode`
reports a (truthy) outcome for the payload, and the optional purchase
order and location references resolve, `BarcodePOReceive.post` raises
the validation error `Item has already been received` and no supplier
plugin's `scan_receive_item` is ever invoked (the invocation trace is
empty). -/
theorem receive_rejects_internal_match (hashBarcode : Value → String)
    (plugins : List Plugin) (splugins : List SPlugin)
    (poLookup locLookup : Value → Option Inst) (user : String) (data : Dict)
    (bd : Value) (ip : Plugin)
    (hget : dictGet data "barcode" = some bd) (hfal : bd.falsy = false)
    (hpo : ∃ po, poResolve poLookup (dictGet data "purchase_order") = Except.ok po)
    (hloc : ∃ l, locResolve locLookup (dictGet data "location") = Except.ok l)
    (hip : plugins.find? (fun q => q.name == "InvenTreeBarcode") = some ip)
    (hscan : scanTruthy (ip.scan bd) = true) :
    barcodePOReceivePost hashBarcode plugins splugins poLookup locLookup user data =
      (.validationError [("error", .str "Item has already been received")], []) := by
  obtain ⟨po, hpo⟩ := hpo
  obtain ⟨l, hloc⟩ := hloc
  simp [barcodePOReceivePost, hget, hfal, hpo, hloc, hip, hscan]

theorem receive_rejects_internal_match_witness :
    scanTruthy (ipX.scan (.str "B")) = true ∧
    barcodePOReceivePost hashX [ipX] [spyS] lkNone lkNone "u" dataR2 =
      (.validationError [("error", .str "Item has already been received")], []) :=
  ⟨rfl, receive_rejects_internal_match hashX [ipX] [spyS] lkNone lkNone "u" dataR2
    (.str "B") ipX rfl rfl ⟨none, rfl⟩ ⟨none, rfl⟩ rfl rfl⟩

/-- C8: a receive request whose `location` refers to no existing stock
location does not produce the documented `Invalid stock location`
validation error: `StockLocation.objects.get(pk=...)` raises an
uncaught `DoesNotExist` (a server fault), because `objects.get` never
returns `None` and the `if not location` branch guarding the intended
validation error is unreachable. -/
theorem receive_missing_location_uncaught :
    barcodePOReceivePost hashX [] [] lkNone lkNone "u" dataR =
      (.uncaught "StockLocation.DoesNotExist", []) := rfl

/-- Models whose label is absent from the request are skipped by the
assign loop. -/
lemma assignLoop_skip (bd : Value) (bh : String) (perm : String → Bool) (data : Dict)
    (allLabels : List String) :
    ∀ (pre rest : List BModel), (∀ m ∈ pre, dictGet data m.label = none) →
      assignLoop bd bh perm data allLabels (pre ++ rest) =
        assignLoop bd bh perm data allLabels rest := by
  intro pre
  induction pre with
  | nil => intro rest _; rfl
  | cons m pre ih =>
    intro rest h
    have hm : dictGet data m.label = none := h m (by simp)
    simp [assignLoop, hm, ih rest (fun q hq => h q (by simp [hq]))]

/-- Models whose label is absent from the request are skipped by the
unassign loop. -/
lemma unassignLoop_skip (perm : String → Bool) (data : Dict) :
    ∀ (pre rest : List BModel), (∀ m ∈ pre, dictGet data m.label = none) →
      unassignLoop perm data (pre ++ rest) = unassignLoop perm data rest := by
  intro pre
  induction pre with
  | nil => intro rest _; rfl
  | cons m pre ih =>
    intro rest h
    have hm : dictGet data m.label = none := h m (by simp)
    simp [unassignLoop, hm, ih rest (fun q hq => h q (by simp [hq]))]

/-- When exactly the middle model's label occurs in the request, the
matched-label list is that single label. -/
lemma labels_filter_single (data : Dict) (pre post : List BModel) (m : BModel)
    (hpre : ∀ q ∈ pre, dictGet data q.label = none)
    (hpost : ∀ q ∈ post, dictGet data q.label = none)
    (hm : (dictGet data m.label).isSome = true) :
    ((pre ++ m :: post).map (fun x => x.label)).filter
        (fun l => (dictGet data l).isSome) = [m.label] := by
  have h1 : (pre.map (fun x => x.label)).filter (fun l => (dictGet data l).isSome) = [] := by
    rw [List.filter_eq_nil_iff]
    intro a ha
    obtain ⟨q, hq, hql⟩ := List.mem_map.mp ha
    subst hql
    simp [hpre q hq]
  have h2 : (post.map (fun x => x.label)).filter (fun l => (dictGet data l).isSome) = [] := by
    rw [List.filter_eq_nil_iff]
    intro a ha
    obtain ⟨q, hq, hql⟩ := List.mem_map.mp ha
    subst hql
    simp [hpost q hq]
  simp [List.filter_append, h1, List.filter_cons, hm, h2]

/-- C6 (amended): when the request names a supported label whose
primary key DOES resolve to an existing instance and the actor lacks
the change permission on the target table, both `BarcodeAssign.post`
and `BarcodeUnassign.post` fail with the permission error for that
table and perform no mutation.  (The original claim's "independent of
whether the entity exists" fails: the existence lookup precedes the
permission check, see the counterexample.) -/
theorem assign_unassign_perm_denied (hashBarcode : Value → String)
    (builtins : List Plugin) (pre post : List BModel) (m : BModel)
    (perm : String → Bool) (data : Dict) (bd pkv : Value) (inst : Inst)
    (hget : dictGet data "barcode" = some bd) (hfal : bd.falsy = false)
    (hscan : findScan builtins bd = none)
    (hpre : ∀ q ∈ pre, dictGet data q.label = none)
    (hpost : ∀ q ∈ post, dictGet data q.label = none)
    (hm : dictGet data m.label = some pkv)
    (hlk : m.lookup pkv = some inst)
    (hperm : perm m.table = false) :
    barcodeAssignPost hashBarcode builtins (pre ++ m :: post) perm data =
      (.permissionDenied
        [("error", .str ("You do not have the required permissions for " ++ m.table))], []) ∧
    barcodeUnassignPost (pre ++ m :: post) perm data =
      (.permissionDenied
        [("error", .str ("You do not have the required permissions for " ++ m.table))], []) := by
  constructor
  · rw [barcodeAssignPost]
    simp only [hget]
    rw [if_neg (by simp [hfal])]
    simp only [hscan]
    rw [assignLoop_skip bd (hashBarcode bd) perm data _ pre (m :: post) hpre]
    simp [assignLoop, hm, hlk, hperm]
  · have hmatched := labels_filter_single data pre post m hpre hpost (by simp [hm])
    rw [barcodeUnassignPost]
    simp only [hmatched]
    rw [if_neg (by simp), if_neg (by simp)]
    rw [unassignLoop_skip perm data pre (m :: post) hpre]
    simp [unassignLoop, hm, hlk, hperm]

theorem assign_unassign_perm_denied_witness :
    mdlOk.lookup (.num 7) = some { pk := .num 7 } ∧
    permNone mdlOk.table = false ∧
    barcodeAssignPost hashX [] ([] ++ mdlOk :: []) permNone dataCex =
      (.permissionDenied
        [("error", .str ("You do not have the required permissions for " ++ mdlOk.table))], []) ∧
    barcodeUnassignPost ([] ++ mdlOk :: []) permNone dataCex =
      (.permissionDenied
        [("error", .str ("You do not have the required permissions for " ++ mdlOk.table))], []) := by
  refine ⟨rfl, rfl, ?_⟩
  exact assign_unassign_perm_denied hashX [] [] [] mdlOk permNone dataCex
    (.str "B1") (.num 7) { pk := .num 7 } rfl rfl rfl (by simp) (by simp) rfl rfl rfl

/-- C6 (counterexample to the original claim): the actor lacks the
change permission on `part_part` and the request names the supported
label `part`, but since no `part` row with primary key 7 exists the
operation fails with the not-found validation error, not with a
permission error — the permission failure is NOT independent of
whether the entity exists, because the existence lookup runs first. -/
theorem assign_perm_not_independent_cex :
    (barcodeAssignPost hashX [] [mdlX] permNone dataCex).1 =
      .validationError [("error", .str "No matching part instance found in database")] ∧
    ApiResult.isPermissionError (barcodeAssignPost hashX [] [mdlX] permNone dataCex).1 = false :=
  ⟨rfl, rfl⟩

/-- C7: `BarcodeUnassign.post` rejects a request carrying none of the
supported labels with the missing-data error listing the valid labels,
and a request carrying more than one supported label with the
multiple-conflicting-fields error — in both cases before any model
lookup, permission check or mutation (the result does not depend on
the models' lookup functions or on the permission checker, which are
universally quantified here, and the mutation log is empty). -/
theorem unassign_label_count_errors (models : List BModel) (perm : String → Bool)
    (data : Dict) :
    (((models.map (fun m => m.label)).filter (fun l => (dictGet data l).isSome)).length = 0 →
      barcodeUnassignPost models perm data =
        (.validationError [("error", .str ("Missing data: Provide one of \x27" ++
          String.intercalate ", " (models.map (fun m => m.label)) ++ "\x27"))], [])) ∧
    (((models.map (fun m => m.label)).filter (fun l => (dictGet data l).isSome)).length > 1 →
      barcodeUnassignPost models perm data =
        (.validationError [("error", .str ("Multiple conflicting fields: \x27" ++
          String.intercalate ", " (models.map (fun m => m.label)) ++ "\x27"))], [])) := by
  constructor
  · intro h
    rw [barcodeUnassignPost]
    simp only [h]
    simp
  · intro h
    rw [barcodeUnassignPost]
    rw [if_neg (by omega), if_pos h]

theorem unassign_label_count_errors_witness :
    barcodeUnassignPost [mdlX] permNone dataU0 =
      (.validationError [("error", .str ("Missing data: Provide one of \x27" ++
        String.intercalate ", " ([mdlX].map (fun m => m.label)) ++ "\x27"))], []) ∧
    barcodeUnassignPost [mdlOk, mdlB] permNone dataU2 =
      (.validationError [("error", .str ("Multiple conflicting fields: \x27" ++
        String.intercalate ", " ([mdlOk, mdlB].map (fun m => m.label)) ++ "\x27"))], []) :=
  ⟨(unassign_label_count_errors [mdlX] permNone dataU0).1 rfl,
   (unassign_label_count_errors [mdlOk, mdlB] permNone dataU2).2 (by decide)⟩

/-- Whenever some model's label occurs in the request, the unassign
loop terminates with one of its three in-loop outcomes. -/
lemma unassignLoop_shapes (perm : String → Bool) (data : Dict) :
    ∀ models : List BModel, (∃ m ∈ models, (dictGet data m.label).isSome = true) →
      (∃ l, (unassignLoop perm data models).1 =
          .ok [("success", .str ("Barcode unassigned from " ++ l ++ " instance"))]) ∨
      (∃ l, (unassignLoop perm data models).1 =
          .validationError [(l, .str "No match found for provided value")]) ∨
      (∃ t, (unassignLoop perm data models).1 =
          .permissionDenied [("error", .str ("You do not have the required permissions for " ++ t))]) := by
  intro models
  induction models with
  | nil => intro h; simp at h
  | cons m rest ih =>
    intro h
    cases hm : dictGet data m.label with
    | none =>
      have hrest : ∃ q ∈ rest, (dictGet data q.label).isSome = true := by
        obtain ⟨q, hq, hqs⟩ := h
        rcases List.mem_cons.mp hq with h2 | h2
        · subst h2; rw [hm] at hqs; simp at hqs
        · exact ⟨q, h2, hqs⟩
      simpa [unassignLoop, hm] using ih hrest
    | some pkv =>
      cases hlk : m.lookup pkv with
      | none => exact Or.inr (Or.inl ⟨m.label, by simp [unassignLoop, hm, hlk]⟩)
      | some inst =>
        cases hp : perm m.table with
        | true => exact Or.inl ⟨m.label, by simp [unassignLoop, hm, hlk, hp]⟩
        | false => exact Or.inr (Or.inr ⟨m.table, by simp [unassignLoop, hm, hlk, hp]⟩)

/-- C10: when exactly one supported label occurs in the request,
`BarcodeUnassign.post` terminates inside the per-model loop — with the
success response, the per-label not-found validation error, or the
permission error — and the trailing `Could not unassign barcode`
branch after the loop is unreachable. -/
theorem unassign_single_label_no_fallthrough (models : List BModel)
    (perm : String → Bool) (data : Dict)
    (h : ((models.map (fun m => m.label)).filter (fun l => (dictGet data l).isSome)).length = 1) :
    ((∃ l, (barcodeUnassignPost models perm data).1 =
        .ok [("success", .str ("Barcode unassigned from " ++ l ++ " instance"))]) ∨
     (∃ l, (barcodeUnassignPost models perm data).1 =
        .validationError [(l, .str "No match found for provided value")]) ∨
     (∃ t, (barcodeUnassignPost models perm data).1 =
        .permissionDenied [("error", .str ("You do not have the required permissions for " ++ t))])) ∧
    (barcodeUnassignPost models perm data).1 ≠
      .validationError [("error", .str "Could not unassign barcode")] := by
  have hres : barcodeUnassignPost models perm data = unassignLoop perm data models := by
    rw [barcodeUnassignPost]
    rw [if_neg (by omega), if_neg (by omega)]
  have hne : (models.map (fun m => m.label)).filter (fun l => (dictGet data l).isSome) ≠ [] := by
    intro hc
    rw [hc] at h
    simp at h
  have hex : ∃ m ∈ models, (dictGet data m.label).isSome = true := by
    obtain ⟨l, hl⟩ := List.exists_mem_of_ne_nil _ hne
    have hlf := List.mem_filter.mp hl
    obtain ⟨q, hq, hql⟩ := List.mem_map.mp hlf.1
    subst hql
    exact ⟨q, hq, hlf.2⟩
  have hsh := unassignLoop_shapes perm data models hex
  rw [hres]
  refine ⟨hsh, ?_⟩
  rcases hsh with ⟨l, hl⟩ | ⟨l, hl⟩ | ⟨t, ht⟩
  · rw [hl]; intro hc; simp at hc
  · rw [hl]; intro hc; simp at hc
  · rw [ht]; intro hc; simp at hc

theorem unassign_single_label_no_fallthrough_witness :
    (([mdlX].map (fun m => m.label)).filter (fun l => (dictGet dataU l).isSome)).length = 1 ∧
    (barcodeUnassignPost [mdlX] permNone dataU).1 ≠
      .validationError [("error", .str "Could not unassign barcode")] :=
  ⟨rfl, (unassign_single_label_no_fallthrough [mdlX] permNone dataU rfl).2⟩
